import Mathlib

/-!
A shallow embedding of the ILLIXR switchboard (src/common/switchboard.hpp)
together with proofs about its core operations.

The embedding gives the sequential semantics of the switchboard's operations:
stateful C++ methods become explicit state-passing functions, the worker thread
of a subscription becomes an explicit step function (`thread_body`) that is
iterated, and debug-build assertion failures surface as explicit error values
or failure counts.  All `size_t` counters of the source (`_m_latest_index`,
`_m_enqueued`, `_m_dequeued`) are monotone counters starting at 0 and bounded
by the number of operations performed, so 64-bit wraparound is unreachable and
they are modelled as `Nat`.  The 256-slot ring arithmetic, which does wrap, is
kept exactly as in the source.
-/

universe u

variable {ev : Type u} {α : Type u} {β : Type u}

/-- Error taxonomy of the switchboard as observable at its interface (spec
section 7).  `TypeMismatch` is the debug-build abort on a type-tag mismatch in
`try_register_topic` and in the reader/writer constructors; `NoEventYet` is the
failed assertion in `reader::get_ro` when no event has been published. -/
inductive sb_error where
  | TypeMismatch
  | NoEventYet
deriving DecidableEq

/-- Modelled from the spec: the `managed_thread` state machine.  The file
`managed_thread.hpp` is included by switchboard.hpp but is not part of the
sources here; spec section 4.3 gives its state machine
`initial → running → stopping → stopped`. -/
inductive managed_thread_state where
  | initial
  | running
  | stopping
  | stopped
deriving DecidableEq

/-- The 100 ms timeout `_m_queue_timeout` (switchboard.hpp line 125), used by
the worker's `wait_dequeue_timed` and by the overload-shedding dequeue inside
`enqueue`. -/
def queue_timeout_ms : Nat := 100

/-- One `topic_subscription` (switchboard.hpp lines 118-202): the queue of
pending events (the moodycamel queue; 8 is only a size estimate and the queue
may grow, so it is a plain list here, FIFO under the single-writer assumption),
the `_m_enqueued` / `_m_dequeued` accounting counters, and the state of the
worker thread.  The callback function itself is not stored; the arguments the
worker passes to the callback are produced by `thread_body` below. -/
structure topic_subscription (ev : Type u) where
  topic_name : String
  account_name : String
  queue : List ev
  enqueued : Nat
  dequeued : Nat
  thread_state : managed_thread_state
deriving DecidableEq

/-- The constructor `topic_subscription(topic_name, account_name, callback)`
(switchboard.hpp lines 169-181): fresh queue and zeroed counters.  The
constructor body calls `_m_thread.start()`, so the worker is running by the
time the constructor returns (thread state modelled from the spec, see
`managed_thread_state`). -/
def topic_subscription.create (topic_name account_name : String) :
    topic_subscription ev :=
  { topic_name := topic_name
    account_name := account_name
    queue := []
    enqueued := 0
    dequeued := 0
    thread_state := managed_thread_state.running }

/-- `topic_subscription::enqueue` (switchboard.hpp lines 188-201).  When the
outstanding count `_m_enqueued - _m_dequeued` exceeds 50 and the account name
is "imu_integrator", one event is first removed from the head of the queue by
a timed dequeue (`wait_dequeue_timed` with `queue_timeout_ms`); on an empty
queue that dequeue fails, which debug builds assert on (`assert(0)`) and
release builds ignore — `List.tail` is that release behaviour.  Note that this
removal does not increment `_m_dequeued`.  Afterwards the new event is
appended and `_m_enqueued` is incremented. -/
def topic_subscription.enqueue (s : topic_subscription ev) (this_event : ev) :
    topic_subscription ev :=
  let s1 :=
    if 50 < s.enqueued - s.dequeued ∧ s.account_name = "imu_integrator" then
      { s with queue := s.queue.tail }
    else s
  { s1 with queue := s1.queue ++ [this_event], enqueued := s1.enqueued + 1 }

/-- `topic_subscription::thread_body` (switchboard.hpp lines 139-152): one
iteration of the worker loop.  A successful timed dequeue removes the queue
head, increments `_m_dequeued` and invokes the callback with
`(event, _m_dequeued)`; the returned pair is the argument list of that call.
An empty queue is the timeout case: no state change, no callback. -/
def topic_subscription.thread_body (s : topic_subscription ev) :
    topic_subscription ev × Option (ev × Nat) :=
  match s.queue with
  | [] => (s, none)
  | e :: rest =>
    ({ s with queue := rest, dequeued := s.dequeued + 1 }, some (e, s.dequeued + 1))

/-- The sequence of callback arguments produced by iterating the worker loop
on queue contents `q` with dequeue counter `d` until the queue is empty. -/
def deliver_loop : List ev → Nat → List (ev × Nat)
  | [], _ => []
  | e :: rest, d => (e, d + 1) :: deliver_loop rest (d + 1)

/-- All callback invocations the worker performs from state `s` if it runs
`thread_body` until its queue is empty and no further event arrives. -/
def topic_subscription.deliver_all (s : topic_subscription ev) : List (ev × Nat) :=
  deliver_loop s.queue s.dequeued

/-- The drain loop of `thread_on_stop`: `n` iterations of `try_dequeue` on a
queue holding `q`.  Returns the remaining queue, the number of successful
`try_dequeue` calls, and the number of failed ones.  Each failure trips the
debug-build assertion `assert(ret && "try_dequeue failed")`
(switchboard.hpp line 161). -/
def drain_loop : List ev → Nat → List ev × Nat × Nat
  | q, 0 => (q, 0, 0)
  | [], n + 1 =>
    let r := drain_loop ([] : List ev) n
    (r.1, r.2.1, r.2.2 + 1)
  | _e :: rest, n + 1 =>
    let r := drain_loop rest n
    (r.1, r.2.1 + 1, r.2.2)

/-- `topic_subscription::thread_on_stop` (switchboard.hpp lines 154-166): the
shutdown drain computes `unprocessed = _m_enqueued - _m_dequeued` and performs
exactly that many `try_dequeue` calls, releasing each dequeued reference
without invoking the callback. -/
def topic_subscription.thread_on_stop (s : topic_subscription ev) :
    List ev × Nat × Nat :=
  drain_loop s.queue (s.enqueued - s.dequeued)

/-- The ring size `_m_latest_buffer_size = 256` (switchboard.hpp line 223). -/
def latest_buffer_size : Nat := 256

/-- A `topic` (switchboard.hpp lines 218-311).  The `std::type_info` reference
`_m_ty` is modelled as a string tag; the ring
`std::array<ptr<const event>, 256>` as a function from slot index to
`Option ev` (the default-constructed slots are null shared pointers, i.e.
`none`); `_m_latest_index` as a `Nat`. -/
structure topic (ev : Type u) where
  name : String
  ty : String
  latest_index : Nat
  latest_buffer : Nat → Option ev
  subscriptions : List (topic_subscription ev)

/-- The constructor `topic(name, ty)` (switchboard.hpp lines 229-235): index
0, empty ring, no subscriptions. -/
def topic.create (name ty : String) : topic ev :=
  { name := name
    ty := ty
    latest_index := 0
    latest_buffer := fun _ => none
    subscriptions := [] }

/-- `topic::get` (switchboard.hpp lines 244-253): load `_m_latest_index` and
read the ring slot at that index mod 256. -/
def topic.get (t : topic ev) : Option ev :=
  t.latest_buffer (t.latest_index % latest_buffer_size)

/-- `topic::put` (switchboard.hpp lines 260-283): compute
`serial_no = _m_latest_index + 1`, write the event into the ring slot
`serial_no mod 256`, increment `_m_latest_index`, and then, under the
subscriptions lock, enqueue a copy of the shared reference into every
subscription's queue. -/
def topic.put (t : topic ev) (this_event : ev) : topic ev :=
  let serial_no := t.latest_index + 1
  let index := serial_no % latest_buffer_size
  { t with
    latest_buffer := fun j => if j = index then some this_event else t.latest_buffer j
    latest_index := serial_no
    subscriptions := t.subscriptions.map fun ts => ts.enqueue this_event }

/-- `topic::schedule` (switchboard.hpp lines 290-298): under the exclusive
lock, append a new `topic_subscription` built from the topic's name and the
account name (its worker starts inside the constructor). -/
def topic.schedule (t : topic ev) (account_name : String) : topic ev :=
  { t with
    subscriptions :=
      t.subscriptions ++ [topic_subscription.create t.name account_name] }

/-- `topic::stop` (switchboard.hpp lines 305-310): clear the subscription
list; destroying each subscription stops and joins its worker. -/
def topic.stop (t : topic ev) : topic ev :=
  { t with subscriptions := [] }

/-- `reader::get_ro_nullable` (switchboard.hpp lines 341-351): `topic::get`
followed by a dynamic cast that always succeeds when the handle's static type
matches the topic tag (which the reader constructor checks), hence the
identity here. -/
def reader.get_ro_nullable (t : topic ev) : Option ev :=
  t.get

/-- `reader::get_ro` (switchboard.hpp lines 356-360): `get_ro_nullable` plus
the assertion that the result is non-null ("No event on topic yet"); that
failure is `NoEventYet` in the spec's error taxonomy. -/
def reader.get_ro (t : topic ev) : Except sb_error ev :=
  match reader.get_ro_nullable t with
  | none => Except.error sb_error.NoEventYet
  | some e => Except.ok e

/-- The result of a `writer::allocate` call: either storage on which the
payload constructor has run (carrying the constructed value) or raw
uninitialised storage on which no constructor has run. -/
inductive alloc_result (α : Type u) where
  | constructed (value : α)
  | raw_storage

/-- Whether the payload constructor has run on the storage returned by an
`allocate` call. -/
def alloc_result.is_constructed : alloc_result α → Bool
  | alloc_result.constructed _ => true
  | alloc_result.raw_storage => false

/-- The variadic `writer::allocate(Args&&... args)` (switchboard.hpp lines
418-421): `std::make_shared<specific_event>(std::forward<Args>(args)...)`.
The payload constructor selected for the argument list is modelled by `ctor`;
it runs on the returned storage. -/
def writer.allocate (ctor : α → β) (args : α) : alloc_result β :=
  alloc_result.constructed (ctor args)

/-- The parameterless `writer::allocate()` overload (switchboard.hpp lines
442-444): `reinterpret_cast<specific_event*>` of a freshly allocated
`std::array<std::byte, sizeof(specific_event)>` — raw bytes; no constructor of
`specific_event` runs.  Overload resolution selects this non-template overload
for an empty argument list. -/
def writer.allocate_default (β : Type u) : alloc_result β :=
  alloc_result.raw_storage

/-- `switchboard::event_wrapper` (switchboard.hpp lines 94-107). -/
structure event_wrapper (underlying_type : Type u) where
  underlying_data : underlying_type

/-- The implicit conversion `operator underlying_type() const`
(switchboard.hpp line 104). -/
def event_wrapper.to_underlying (w : event_wrapper α) : α :=
  w.underlying_data

/-- The dereference `operator*` (switchboard.hpp lines 105-106). -/
def event_wrapper.deref (w : event_wrapper α) : α :=
  w.underlying_data

/-- The switchboard's registry `_m_registry` (switchboard.hpp lines 448-449):
topics keyed by name; the `unordered_map` is modelled as an association
list. -/
structure switchboard (ev : Type u) where
  registry : List (String × topic ev)

/-- The registry lookup `_m_registry.find(topic_name)`. -/
def switchboard.find_topic (sb : switchboard ev) (topic_name : String) :
    Option (topic ev) :=
  (sb.registry.find? fun p => p.1 == topic_name).map fun p => p.2

/-- The second phase of `try_register_topic` (switchboard.hpp lines 471-474),
reached when the shared-lock lookup missed: under the exclusive lock,
`try_emplace` — which returns the already-present topic if a concurrent
creator inserted the name in between, performing no type check on that path —
and otherwise inserts `topic(topic_name, ty)`. -/
def switchboard.try_emplace (sb : switchboard ev) (topic_name ty : String) :
    switchboard ev × topic ev :=
  match sb.find_topic topic_name with
  | some t => (sb, t)
  | none =>
    let t : topic ev := topic.create topic_name ty
    ({ registry := sb.registry ++ [(topic_name, t)] }, t)

/-- `switchboard::try_register_topic<specific_event>` (switchboard.hpp lines
451-475), with debug-build semantics: under the shared lock, look the name up;
if found, a type-tag mismatch aborts (`TypeMismatch`) and a match returns the
stored topic; if absent, fall through to the `try_emplace` phase. -/
def switchboard.try_register_topic (sb : switchboard ev) (topic_name ty : String) :
    Except sb_error (switchboard ev × topic ev) :=
  match sb.find_topic topic_name with
  | some t =>
    if ty = t.ty then Except.ok (sb, t) else Except.error sb_error.TypeMismatch
  | none => Except.ok (sb.try_emplace topic_name ty)

/-- `switchboard::stop` (switchboard.hpp lines 526-531): call `topic::stop` on
every registry entry; no entry is removed, so existing handles stay valid. -/
def switchboard.stop (sb : switchboard ev) : switchboard ev :=
  { registry := sb.registry.map fun p => (p.1, p.2.stop) }

/-- A subscription of account "imu_integrator" above the shedding high-water
mark with two queued events, exercising the shedding branch of `enqueue`. -/
def shed_sub_example : topic_subscription Nat :=
  { topic_name := "t"
    account_name := "imu_integrator"
    queue := [1, 2]
    enqueued := 60
    dequeued := 0
    thread_state := managed_thread_state.running }

/-- The subscription state after 52 publishes to an "imu_integrator"
subscriber whose worker made no progress: the 52nd `enqueue` takes the
shedding path. -/
def shed_run_example : topic_subscription Nat :=
  (List.range 52).foldl topic_subscription.enqueue
    (topic_subscription.create "t" "imu_integrator")

/-- An empty registry. -/
def sb_empty_example : switchboard Nat := { registry := [] }

/-- The topic created by registering "t" at type tag "i32". -/
def topic_example : topic Nat := topic.create "t" "i32"

/-- The registry after "t" has been registered at type tag "i32". -/
def sb_one_example : switchboard Nat := { registry := [("t", topic_example)] }

/-- Claim C1: after `topic::put` returns, `latest_index` has been incremented
by exactly one, the ring slot at `latest_index mod 256` holds the
just-published event, and a subsequent `topic::get` with no intervening
publish returns that same event. -/
theorem C1_put_installs_latest (t : topic ev) (e : ev) :
    (t.put e).latest_index = t.latest_index + 1
    ∧ (t.put e).latest_buffer ((t.put e).latest_index % latest_buffer_size) = some e
    ∧ (t.put e).get = some e := by
  refine ⟨rfl, ?_, ?_⟩ <;> simp [topic.put, topic.get]

/-- Claim C6 (amended): for every non-empty argument list the variadic
`allocate` constructs the payload from the given arguments, but the
parameterless `allocate()` overload — the one overload resolution selects for
an empty argument list — returns raw storage on which no constructor has
run. -/
theorem C6_allocate_constructs (ctor : α → β) (args : α) :
    writer.allocate ctor args = alloc_result.constructed (ctor args)
    ∧ (writer.allocate ctor args).is_constructed = true
    ∧ (writer.allocate_default β).is_constructed = false :=
  ⟨rfl, rfl, rfl⟩

/-- Claim C6: counterexample — for the empty argument list the selected
overload is the parameterless `allocate()`, and the storage it returns has had
no constructor run on it, contradicting the claim that the constructor has run
for every argument list including the empty one. -/
theorem C6_counterexample :
    (writer.allocate_default Nat).is_constructed = false := rfl

/-- Claim C7: on a topic to which nothing has been published,
`get_ro_nullable` returns the empty reference and `get_ro` fails with
`NoEventYet`; after a publish, both return the just-published (most recent)
event. -/
theorem C7_fresh_reader (name ty : String) (t : topic ev) (e : ev) :
    reader.get_ro_nullable (topic.create name ty : topic ev) = none
    ∧ reader.get_ro (topic.create name ty : topic ev) = Except.error sb_error.NoEventYet
    ∧ reader.get_ro_nullable (t.put e) = some e
    ∧ reader.get_ro (t.put e) = Except.ok e := by
  refine ⟨rfl, rfl, ?_, ?_⟩ <;>
    simp [reader.get_ro, reader.get_ro_nullable, topic.put, topic.get]

/-- Claim C9: wrapping a value in `event_wrapper` and reading it back through
the implicit conversion operator or through `operator*` yields exactly the
wrapped value. -/
theorem C9_wrapper_roundtrip (x : α) :
    (event_wrapper.mk x).to_underlying = x ∧ (event_wrapper.mk x).deref = x :=
  ⟨rfl, rfl⟩

/-- Claim C10: `schedule` after `stop` succeeds — the stopped topic has an
empty subscription list, `schedule` appends a fresh subscription whose worker
is already running when `schedule` returns, and a subsequent `put` delivers
the new event to that subscription's callback as `(event, 1)`. -/
theorem C10_schedule_after_stop (t : topic ev) (acc : String) (e : ev) :
    t.stop.subscriptions = []
    ∧ (t.stop.schedule acc).subscriptions = [topic_subscription.create t.name acc]
    ∧ (topic_subscription.create t.name acc : topic_subscription ev).thread_state
        = managed_thread_state.running
    ∧ ((t.stop.schedule acc).put e).subscriptions.map topic_subscription.deliver_all
        = [[(e, 1)]] := by
  refine ⟨rfl, rfl, rfl, ?_⟩
  simp [topic.stop, topic.schedule, topic.put, topic_subscription.enqueue,
    topic_subscription.create, topic_subscription.deliver_all, deliver_loop]

/-- Claim C3: `enqueue` removes the head of the subscriber's queue exactly
when the account name is "imu_integrator" and the outstanding count
`enqueued - dequeued` exceeds 50 — via the timed dequeue that uses the 100 ms
timeout — and in every other case (any other account name, or a low
outstanding count) the queue only ever grows by the appended event. -/
theorem C3_enqueue_sheds_iff (s : topic_subscription ev) (e : ev) :
    ((50 < s.enqueued - s.dequeued ∧ s.account_name = "imu_integrator") →
      (s.enqueue e).queue = s.queue.tail ++ [e])
    ∧ (¬(50 < s.enqueued - s.dequeued ∧ s.account_name = "imu_integrator") →
      (s.enqueue e).queue = s.queue ++ [e])
    ∧ queue_timeout_ms = 100 := by
  refine ⟨fun h => ?_, fun h => ?_, rfl⟩
  · obtain ⟨h1, h2⟩ := h
    simp [topic_subscription.enqueue, h1, h2]
  · simp [topic_subscription.enqueue, h]

/-- Claim C3, witness: a shedding subscriber with queue `[1, 2]` sheds the
head `1` when `7` is enqueued, and a subscriber under any other account name
keeps its queue intact. -/
theorem C3_witness :
    (shed_sub_example.enqueue 7).queue = [2, 7]
    ∧ ((topic_subscription.create "t" "other" : topic_subscription Nat).enqueue 7).queue
        = [7] := by
  have h1 := C3_enqueue_sheds_iff shed_sub_example (7 : Nat)
  have h2 :=
    C3_enqueue_sheds_iff (topic_subscription.create "t" "other" : topic_subscription Nat) 7
  exact ⟨(h1.1 (by decide)).trans (by decide), (h2.2.1 (by decide)).trans (by decide)⟩

set_option maxRecDepth 40000 in
/-- Claim C2, evaluated at the failing input: account "imu_integrator", 52
enqueues with no intervening worker dequeues, then stop.  The shedding dequeue
inside `enqueue` removed a queue entry without incrementing `_m_dequeued`, so
the outstanding count is 52 while only 51 entries remain in the queue; the
drain performs 51 successful `try_dequeue` calls and 1 failing one — the
failure that trips the debug assertion — contradicting the claim that the
outstanding count equals the number of entries remaining and that every
`try_dequeue` succeeds. -/
theorem C2_shed_breaks_drain_accounting :
    shed_run_example.enqueued - shed_run_example.dequeued = 52
    ∧ shed_run_example.queue.length = 51
    ∧ shed_run_example.thread_on_stop.2.1 = 51
    ∧ shed_run_example.thread_on_stop.2.2 = 1 := by
  decide

/-- For an account other than "imu_integrator", `enqueue` never takes the
shedding branch: it appends the event and increments `_m_enqueued`. -/
theorem enqueue_of_account_ne (s : topic_subscription ev) (e : ev)
    (h : s.account_name ≠ "imu_integrator") :
    s.enqueue e = { s with queue := s.queue ++ [e], enqueued := s.enqueued + 1 } := by
  simp [topic_subscription.enqueue, h]

/-- Folding `put` over a list of events maps the corresponding fold of
`enqueue` over every subscription. -/
theorem foldl_put_subscriptions (es : List ev) :
    ∀ t : topic ev,
      (es.foldl topic.put t).subscriptions
        = t.subscriptions.map fun s => es.foldl topic_subscription.enqueue s := by
  induction es with
  | nil => intro t; simp
  | cons e es ih =>
    intro t
    rw [List.foldl_cons, ih (t.put e)]
    show (t.subscriptions.map fun ts => ts.enqueue e).map _ = _
    rw [List.map_map]
    rfl

/-- Folding `enqueue` over a list of events, for a subscriber that never takes
the shedding branch, appends all events in order and advances `_m_enqueued` by
their number while leaving `_m_dequeued` and the account name unchanged. -/
theorem foldl_enqueue_fields (es : List ev) :
    ∀ s : topic_subscription ev, s.account_name ≠ "imu_integrator" →
      (es.foldl topic_subscription.enqueue s).queue = s.queue ++ es
      ∧ (es.foldl topic_subscription.enqueue s).dequeued = s.dequeued
      ∧ (es.foldl topic_subscription.enqueue s).enqueued = s.enqueued + es.length
      ∧ (es.foldl topic_subscription.enqueue s).account_name = s.account_name := by
  induction es with
  | nil => intro s h; simp
  | cons e es ih =>
    intro s h
    rw [List.foldl_cons, enqueue_of_account_ne s e h]
    obtain ⟨hq, hd, he, ha⟩ := ih { s with queue := s.queue ++ [e], enqueued := s.enqueued + 1 } h
    refine ⟨?_, hd, ?_, ha⟩
    · rw [hq]; simp
    · rw [he]; simp [Nat.add_assoc, Nat.add_comm 1 es.length]

/-- Iterating the worker loop delivers the queued events in order, pairing the
k-th remaining event with iteration number `d + k`. -/
theorem deliver_loop_eq_zip (es : List ev) :
    ∀ d : Nat, deliver_loop es d = es.zip (List.range' (d + 1) es.length) := by
  induction es with
  | nil => intro d; rfl
  | cons e es ih =>
    intro d
    rw [List.length_cons, List.range'_succ]
    show (e, d + 1) :: deliver_loop es (d + 1) = (e, d + 1) :: es.zip (List.range' (d + 1 + 1) es.length)
    rw [ih (d + 1)]

/-- Claim C4 (amended): for a subscriber that is not subject to the
overload-shedding path (its account name is not "imu_integrator"), publishing
the events `es` on a fresh topic whose single subscription was scheduled
before the first publish invokes that subscription's callback exactly once per
event, in publish order, with the k-th invocation receiving iteration number
k; concretely, publishing 10, 20, 30 produces the log
`[(10,1), (20,2), (30,3)]`. -/
theorem C4_ordered_delivery (name ty acc : String) (es : List ev)
    (h : acc ≠ "imu_integrator") :
    (es.foldl topic.put ((topic.create name ty : topic ev).schedule acc)).subscriptions.map
        topic_subscription.deliver_all
      = [es.zip (List.range' 1 es.length)] := by
  rw [foldl_put_subscriptions]
  show [(es.foldl topic_subscription.enqueue (topic_subscription.create name acc))].map
      topic_subscription.deliver_all = _
  obtain ⟨hq, hd, _, _⟩ :=
    foldl_enqueue_fields es (topic_subscription.create name acc : topic_subscription ev) h
  rw [List.map_singleton, topic_subscription.deliver_all, hq, hd]
  show [deliver_loop es 0] = [es.zip (List.range' 1 es.length)]
  rw [deliver_loop_eq_zip es 0]

/-- Claim C4, witness: scenario S2 — scheduling subscriber "S" on a fresh
topic and publishing 10, 20, 30 yields the callback log
`[(10,1), (20,2), (30,3)]`. -/
theorem C4_witness_s2 :
    (([10, 20, 30] : List Nat).foldl topic.put
        ((topic.create "p" "i32").schedule "S")).subscriptions.map
        topic_subscription.deliver_all
      = [[(10, 1), (20, 2), (30, 3)]] := by
  have h := C4_ordered_delivery "p" "i32" "S" ([10, 20, 30] : List Nat) (by decide)
  exact h.trans (by decide)

set_option maxRecDepth 40000 in
/-- Claim C4, counterexample: with the subscriber named "imu_integrator" and
52 events published while the worker makes no progress, the 52nd publish takes
the shedding path and drops the first event from the queue, so the callback is
not invoked exactly once per event in publish order: the delivered log has 51
entries instead of 52 and the first event is missing. -/
theorem C4_counterexample_shed :
    ¬ (((List.range 52).foldl topic.put
          ((topic.create "p" "i32" : topic Nat).schedule "imu_integrator")).subscriptions.map
        topic_subscription.deliver_all
      = [(List.range 52).zip (List.range' 1 (List.range 52).length)]) := by
  decide

/-- If a predicate finds nothing in the first list, searching the
concatenation searches the second list. -/
theorem find_none_append (p : α → Bool) (l1 l2 : List α) (h : l1.find? p = none) :
    (l1 ++ l2).find? p = l2.find? p := by
  rw [List.find?_append, h, Option.none_or]

/-- A successful `try_register_topic` leaves the returned topic in the
returned registry under the requested name, with the requested type tag. -/
theorem register_ok_find (sb sb1 : switchboard ev) (name ty : String) (t : topic ev)
    (h : sb.try_register_topic name ty = Except.ok (sb1, t)) :
    sb1.find_topic name = some t ∧ t.ty = ty := by
  unfold switchboard.try_register_topic at h
  cases hf : sb.find_topic name with
  | some t0 =>
    rw [hf] at h
    by_cases hty : ty = t0.ty
    · simp only [hty, if_pos rfl] at h
      obtain ⟨h1, h2⟩ := Prod.mk.injEq .. ▸ Except.ok.inj h
      subst h1; subst h2
      exact ⟨hf, hty.symm⟩
    · simp [hty] at h
  | none =>
    rw [hf] at h
    have hemp : sb.try_emplace name ty = (sb1, t) := Except.ok.inj h
    unfold switchboard.try_emplace at hemp
    rw [hf] at hemp
    obtain ⟨h1, h2⟩ := Prod.mk.injEq .. ▸ hemp
    have hfind : sb.registry.find? (fun p => p.1 == name) = none := by
      have hf2 := hf
      unfold switchboard.find_topic at hf2
      exact Option.map_eq_none.mp hf2
    subst h1; subst h2
    constructor
    · unfold switchboard.find_topic
      rw [find_none_append _ _ _ hfind]
      simp [topic.create]
    · rfl

/-- Claim C5 (amended): once `try_register_topic` has returned a topic for
`(name, ty)`, registering `(name, ty)` again returns the same registry and
the same topic, and registering `(name, ty2)` with `ty2 ≠ ty` fails with
`TypeMismatch`; a concurrent creator of the same name that reaches the
`try_emplace` phase after the insertion converges on the same topic — but
that phase performs no type check, whatever tag the racing creator used. -/
theorem C5_register_same_topic (sb sb1 : switchboard ev) (name ty : String)
    (t : topic ev) (h : sb.try_register_topic name ty = Except.ok (sb1, t)) :
    sb1.try_register_topic name ty = Except.ok (sb1, t)
    ∧ (∀ ty2, ty2 ≠ ty → sb1.try_register_topic name ty2 = Except.error sb_error.TypeMismatch)
    ∧ (∀ ty3, sb1.try_emplace name ty3 = (sb1, t)) := by
  obtain ⟨hfind, hty⟩ := register_ok_find sb sb1 name ty t h
  refine ⟨?_, ?_, ?_⟩
  · unfold switchboard.try_register_topic
    rw [hfind]
    simp [hty]
  · intro ty2 hne
    unfold switchboard.try_register_topic
    rw [hfind]
    simp only [hty, if_neg hne]
  · intro ty3
    unfold switchboard.try_emplace
    rw [hfind]

/-- Claim C5, witness: registering "t" at tag "i32" in an empty registry and
then registering again returns the same topic, while registering "t" at tag
"f64" fails with `TypeMismatch`. -/
theorem C5_witness :
    sb_one_example.try_register_topic "t" "i32" = Except.ok (sb_one_example, topic_example)
    ∧ sb_one_example.try_register_topic "t" "f64" = Except.error sb_error.TypeMismatch := by
  have h0 : sb_empty_example.try_register_topic "t" "i32"
      = Except.ok (sb_one_example, topic_example) := rfl
  have h := C5_register_same_topic sb_empty_example sb_one_example "t" "i32" topic_example h0
  exact ⟨h.1, h.2.1 "f64" (by decide)⟩

/-- Claim C5, counterexample: the claimed `TypeMismatch` under a race does not
happen.  A caller using tag "f64" whose shared-lock lookup misses the empty
registry, and whose `try_emplace` phase then runs after a concurrent creator
registered "t" at tag "i32", gets the existing "i32" topic back with no error:
the `try_emplace` path performs no type check. -/
theorem C5_counterexample :
    sb_empty_example.find_topic "t" = none
    ∧ sb_one_example.try_emplace "t" "f64" = (sb_one_example, topic_example)
    ∧ topic_example.ty = "i32"
    ∧ ("i32" : String) ≠ "f64" :=
  ⟨rfl, rfl, rfl, by decide⟩

/-- Claim C8: `switchboard::stop` is idempotent — a second `stop` changes
nothing; every topic stays in the registry under its name; after a topic's
`stop`, `get` still returns the latest value, and `put` still installs the
event into the ring but finds no subscription left to call back. -/
theorem C8_stop_idempotent (sb : switchboard ev) (t : topic ev) (e : ev) :
    sb.stop.stop = sb.stop
    ∧ sb.stop.registry.map Prod.fst = sb.registry.map Prod.fst
    ∧ t.stop.get = t.get
    ∧ (t.stop.put e).latest_buffer ((t.latest_index + 1) % latest_buffer_size) = some e
    ∧ (t.stop.put e).subscriptions = [] := by
  refine ⟨?_, ?_, rfl, ?_, rfl⟩
  · cases sb with
    | mk reg =>
      simp only [switchboard.stop]
      congr 1
      induction reg with
      | nil => rfl
      | cons p l ih =>
        simp only [List.map_cons]
        rw [ih]
        rfl
  · cases sb with
    | mk reg =>
      simp only [switchboard.stop]
      induction reg with
      | nil => rfl
      | cons p l ih =>
        simp only [List.map_cons]
        rw [ih]
  · simp [topic.stop, topic.put]
